import Mathlib

/-!
Shallow embedding of the pd-sink-stm32-rs firmware core, translated from the
repository sources:

* `src/src/button.rs`   — per-button gesture classifier
* `src/src/controller.rs` — gesture coordinator and page/settings state machine
* `src/src/shared.rs`   — timing/threshold constants and initial mutex values
* `src/st7789/src/lib.rs` — display protocol driver (`write_area` geometry)
* `src/src/display.rs`  — differential renderer (glyph diff of `render_monitor`)
* `src/src/main.rs`     — sensor loop over-current trip path
* `src/src/output_controler.rs` — output-enable actuator
* `src/src/exponential_moving_average.rs` — EMA filter

Machine conventions: `embassy_time::Instant` is a monotonic tick counter whose
minimum (`Instant::MIN`, used as the "never" sentinel) is 0; instants and
durations are modelled as `Nat` in milliseconds.  The `f64` threshold values
manipulated by the controller are exact dyadic rationals (multiples of 0.25
within a tiny range), so they are modelled as `ℚ`; every comparison and
arithmetic step the code performs on them is exact in `f64`.  Rust `panic`
paths (out-of-bounds indexing) are modelled with `Option`.
-/

namespace PdSink

/-! ### Constants from `src/src/shared.rs` (durations in milliseconds) -/

def MIN_PRESS_DURATION : Nat := 50

def SHORT_PRESS_DURATION : Nat := 200

def DOUBLE_CLICK_TIMEOUT : Nat := 300

def MAX_SIMULTANEOUS_PRESS_DELAY : Nat := 100

def OCP_MAX : ℚ := 10

/-- Initial value of `BACKLIGHT_MUTEX` (`src/src/shared.rs` line 62). -/
def BACKLIGHT_INIT : Nat := 255

/-! ### Button classifier, from `src/src/button.rs` -/

/-- `ButtonState` from `src/src/button.rs`. -/
inductive ButtonState where
  | Released
  | Pressed
  | Click (t : Nat)
  | LongPressed (t : Nat)
  | DoubleClick (t : Nat)
deriving DecidableEq, Repr

/-- The two timestamps of `Button`; `0` is `Instant::MIN`, the "never" sentinel. -/
structure Button where
  last_press_time : Nat
  last_release_time : Nat
deriving DecidableEq, Repr

/-- `Button::new`: both timestamps start at the sentinel. -/
def Button.new : Button := ⟨0, 0⟩

/-- `Button::on_press`: record `now` as the press time and emit `Pressed`. -/
def on_press (b : Button) (now : Nat) : Button × ButtonState :=
  ({ b with last_press_time := now }, .Pressed)

/-- `Button::on_release`, translated branch by branch from `src/src/button.rs`
lines 37-68. -/
def on_release (b : Button) (now : Nat) : Button × ButtonState :=
  if b.last_press_time = 0 then
    ({ b with last_release_time := 0 }, .Released)
  else if now - b.last_press_time < MIN_PRESS_DURATION then
    (b, .Released)
  else if now - b.last_release_time < DOUBLE_CLICK_TIMEOUT then
    ({ last_press_time := 0, last_release_time := now }, .DoubleClick now)
  else
    ({ last_press_time := 0, last_release_time := now }, .Click now)

/-- `Button::update` (the periodic long-press poll), from `src/src/button.rs`
lines 70-85. -/
def update (b : Button) (now : Nat) : Button × Option ButtonState :=
  if b.last_press_time = 0 then
    (b, none)
  else if now - b.last_press_time > SHORT_PRESS_DURATION then
    (({ last_press_time := 0, last_release_time := 0 } : Button), some (.LongPressed now))
  else
    (b, none)

/-- Run a sequence of periodic `update` polls at the given times, collecting
every emitted event. -/
def run_updates : Button → List Nat → Button × List ButtonState
  | b, [] => (b, [])
  | b, t :: ts =>
    let r := update b t
    let rest := run_updates r.1 ts
    (rest.1, r.2.toList ++ rest.2)

/-- Count the `LongPressed` events in an emission list. -/
def countLongPressed (es : List ButtonState) : Nat :=
  es.countP fun e => match e with
    | .LongPressed _ => true
    | _ => false

/-! ### Coordinator data model, from `src/src/types.rs` and `husb238` -/

/-- The PDO voltages of `VOLTAGE_ITEMS` (the `husb238::SrcPdo` variants the
firmware cycles through). -/
inductive SrcPdo where
  | _5v
  | _9v
  | _12v
  | _15v
  | _18v
  | _20v
deriving DecidableEq, Repr

/-- `SettingItem` from `src/src/types.rs`. -/
inductive SettingItem where
  | Voltage
  | UVP
  | OCP
  | About
deriving DecidableEq, Repr

/-- `SETTING_ITEMS` from `src/src/types.rs`. -/
def SETTING_ITEMS : List SettingItem := [.Voltage, .UVP, .OCP, .About]

/-- `Page`, with the constructors exactly as `src/src/controller.rs` matches
them (`Page::OCP` carries no payload there). -/
inductive Page where
  | Monitor
  | Setting (item : SettingItem)
  | Voltage (selected : SrcPdo)
  | UVP
  | OCP
  | About
deriving DecidableEq, Repr

/-- `Direction` from `src/src/types.rs`. -/
inductive Direction where
  | Normal
  | Reversed
deriving DecidableEq, Repr

/-- `BtnsState` from `src/src/controller.rs`. -/
inductive BtnsState where
  | Up
  | Down
  | UpLong
  | DownLong
  | UpDbk
  | DownDbk
  | UpAndDown
  | UpAndDownLong
deriving DecidableEq, Repr

/-- The mutex-guarded device state `Controller::handle_input` reads and
writes: the page, the per-setting values, and the PD capability data.
`available` is the list produced by `get_available_voltages` (the available
PDO voltages, consulted by `up_voltage`/`down_voltage`); `selected_voltage`
is the content of `SELECTED_VOLTAGE_MUTEX`. -/
structure CtrlState where
  page : Page
  backlight : Nat
  direction : Direction
  ocp : ℚ
  uvp : ℚ
  output : Bool
  pdo : SrcPdo
  selected_voltage : SrcPdo
  available : List SrcPdo
deriving DecidableEq, Repr

/-- `Controller::switch_direction` (its effect on the direction mutex). -/
def switch_direction (s : CtrlState) : CtrlState :=
  { s with direction := match s.direction with
      | .Normal => .Reversed
      | .Reversed => .Normal }

/-- `available.iter().position(|&x| selected == x)`: index of the first
occurrence of `selected`. -/
def position : List SrcPdo → SrcPdo → Option Nat
  | [], _ => none
  | x :: xs, selected =>
    if selected = x then some 0 else (position xs selected).map (· + 1)

/-- `Controller::up_voltage` (`src/src/controller.rs` lines 474-486); `none`
models the `available[0]` panic on an empty capability list. -/
def up_voltage (available : List SrcPdo) (selected : SrcPdo) : Option SrcPdo :=
  match position available selected with
  | none => available.get? 0
  | some index => available.get? ((index + 1) % available.length)

/-- `Controller::down_voltage` (`src/src/controller.rs` lines 488-500). -/
def down_voltage (available : List SrcPdo) (selected : SrcPdo) : Option SrcPdo :=
  match position available selected with
  | none => available.get? 0
  | some index => available.get? ((index + available.length - 1) % available.length)

/-- `Controller::handle_input`, the page/settings state machine of
`src/src/controller.rs` lines 149-455, branch by branch.  Only the state
mutations are modelled; each branch additionally publishes the value it
wrote to the matching broadcast topic.  `none` models a Rust index panic. -/
def handle_input (s : CtrlState) (btns : BtnsState) : Option CtrlState :=
  match s.page with
  | .Monitor =>
    match btns with
    | .Up => some { s with backlight := if s.backlight > 10 then 10 else s.backlight + 1 }
    | .Down => some { s with backlight := if s.backlight < 1 then 0 else s.backlight - 1 }
    | .UpLong => some s
    | .DownLong => some { s with backlight := 0 }
    | .UpDbk | .DownDbk => some { s with direction := match s.direction with
        | .Normal => .Reversed
        | .Reversed => .Normal }
    | .UpAndDown => some { s with page := .Setting .Voltage }
    | .UpAndDownLong => some { s with output := if s.output then false else true }
  | .Setting item =>
    match btns with
    | .Up =>
      let next_index := (SETTING_ITEMS.findIdx? (fun ele => decide (ele = item))).map
        (fun i => (i + 1) % SETTING_ITEMS.length)
      (SETTING_ITEMS.get? (next_index.getD 0)).map
        (fun it => { s with page := .Setting it })
    | .Down =>
      let next_index := (SETTING_ITEMS.findIdx? (fun ele => decide (ele = item))).map
        (fun i => (i + SETTING_ITEMS.length - 1) % SETTING_ITEMS.length)
      (SETTING_ITEMS.get? (next_index.getD 0)).map
        (fun it => { s with page := .Setting it })
    | .UpLong => some s
    | .DownLong => some s
    | .UpDbk | .DownDbk => some (switch_direction s)
    | .UpAndDown => some { s with page := match item with
        | .Voltage => .Voltage s.selected_voltage
        | .UVP => .UVP
        | .OCP => .OCP
        | .About => .About }
    | .UpAndDownLong => some { s with page := .Monitor }
  | .Voltage selected =>
    match btns with
    | .Up => (up_voltage s.available selected).map
        (fun v => { s with page := .Voltage v })
    | .Down => (down_voltage s.available selected).map
        (fun v => { s with page := .Voltage v })
    | .UpAndDown => some { s with page := .Setting .UVP, pdo := selected }
    | .UpAndDownLong => some { s with page := .Monitor, pdo := selected }
    | .UpDbk | .DownDbk => some (switch_direction s)
    | _ => some s
  | .UVP =>
    match btns with
    | .Up => some { s with uvp := if s.uvp > OCP_MAX then 10 else s.uvp + 1/4 }
    | .Down => some { s with uvp := if s.uvp < 10 then 0 else s.uvp - 1/4 }
    | .UpAndDown => some { s with page := .Setting .UVP }
    | .UpDbk | .DownDbk => some (switch_direction s)
    | _ => some s
  | .OCP =>
    match btns with
    | .Up => some { s with ocp := if s.ocp > OCP_MAX then 10 else s.ocp + 1/4 }
    | .Down => some { s with ocp := if s.ocp < 10 then 0 else s.ocp - 1/4 }
    | .UpAndDown => some { s with page := .Setting .OCP }
    | .UpDbk | .DownDbk => some (switch_direction s)
    | _ => some s
  | .About =>
    match btns with
    | .UpDbk | .DownDbk => some (switch_direction s)
    | _ => some { s with page := .Setting .About }

/-! ### Coordinator gesture resolution, from `Controller::task` -/

/-- `instant_diff` from `src/src/controller.rs` lines 503-509. -/
def instant_diff (a b : Nat) : Nat :=
  if a > b then a - b else b - a

/-- The compound long-press test of `Controller::task` lines 87-94: both
logical states are `LongPressed` and the timestamps differ by less than
`MAX_SIMULTANEOUS_PRESS_DELAY`. -/
def bothLongWithin (up dn : ButtonState) : Bool :=
  match up, dn with
  | .LongPressed a, .LongPressed b => instant_diff a b < MAX_SIMULTANEOUS_PRESS_DELAY
  | _, _ => false

/-- The compound click test of `Controller::task` lines 96-103. -/
def bothClickWithin (up dn : ButtonState) : Bool :=
  match up, dn with
  | .Click a, .Click b => instant_diff a b < MAX_SIMULTANEOUS_PRESS_DELAY
  | _, _ => false

/-- The guard of lines 106-111 / 126-131: the other button may still be
forming a compound gesture. -/
def is_blocking (s : ButtonState) : Bool :=
  match s with
  | .Pressed => true
  | .LongPressed _ => true
  | _ => false

/-- Single-gesture dispatch for the logical Up button (lines 113-124). -/
def single_up (s : ButtonState) : Option BtnsState :=
  match s with
  | .LongPressed _ => some .UpLong
  | .Click _ => some .Up
  | .DoubleClick _ => some .UpDbk
  | _ => none

/-- Single-gesture dispatch for the logical Down button (lines 133-144). -/
def single_down (s : ButtonState) : Option BtnsState :=
  match s with
  | .LongPressed _ => some .DownLong
  | .Click _ => some .Down
  | .DoubleClick _ => some .DownDbk
  | _ => none

/-- One decision of the `Controller::task` loop body (lines 83-145): given
the two stored logical button states and which button produced the last raw
event, which gesture (if any) is dispatched to `handle_input`. -/
def dispatch (btn_up_state btn_down_state : ButtonState) (up_last : Bool) :
    Option BtnsState :=
  if btn_down_state = .Pressed ∨ btn_up_state = .Pressed then
    none
  else if bothLongWithin btn_up_state btn_down_state then
    some .UpAndDownLong
  else if bothClickWithin btn_up_state btn_down_state then
    some .UpAndDown
  else if up_last then
    if is_blocking btn_down_state then none else single_up btn_up_state
  else
    if is_blocking btn_up_state then none else single_down btn_down_state

/-! ### Display protocol driver geometry, from `src/st7789/src/lib.rs` -/

/-- The local `BUF_SIZE` of `ST7789::write_area` (`24*48*2`). -/
def WRITE_AREA_BUF_SIZE : Nat := 24 * 48 * 2

/-- `MAX_DATA_LEN = BUF_SIZE / 2` from `ST7789::write_area`. -/
def MAX_DATA_LEN : Nat := WRITE_AREA_BUF_SIZE / 2

/-- The height `ST7789::write_area` computes (`src/st7789/src/lib.rs` lines
341-346): `MAX_DATA_LEN / width` plus one when the division leaves a
remainder.  Note that the bitmap passed to `write_area` plays no role. -/
def write_area_height (width : Nat) : Nat :=
  MAX_DATA_LEN / width + (if MAX_DATA_LEN % width > 0 then 1 else 0)

/-- The `(sx, sy, ex, ey)` arguments `write_area` passes to
`set_address_window` (line 348): `(x, y, x + width - 1, y + height - 1)`. -/
def write_area_window (x y width : Nat) : Nat × Nat × Nat × Nat :=
  (x, y, x + width - 1, y + write_area_height width - 1)

/-- Modelled from the spec: the height the specification describes for
`write_area` — the ceiling of the total bit count of the bitmap (8 bits per byte)
divided by `width`.  Stated for comparison with `write_area_height`, which is
what the source computes. -/
def spec_write_area_height (bitmapBytes width : Nat) : Nat :=
  (bitmapBytes * 8 + width - 1) / width

/-! ### Differential renderer glyph diff, from `src/src/display.rs` -/

/-- The set of glyph columns `Display::render_monitor` (lines 653-690)
re-blits: it walks columns 0..5, advancing both character iterators each
step, and skips a column exactly when the two characters agree and no force
redraw is in effect.  `List.get? idx` is `chars.next()` at step `idx`
(`none` once the string is exhausted). -/
def render_monitor_blits (curr prev : List Char) (force_render : Bool) : List Nat :=
  (List.range 5).filter fun idx =>
    force_render || decide (curr.get? idx ≠ prev.get? idx)

/-! ### Output actuator and sensor-loop trip path, from
`src/src/output_controler.rs`, `src/src/exponential_moving_average.rs` and
`src/src/main.rs` -/

/-- A GPIO output level. -/
inductive Level where
  | Low
  | High
deriving DecidableEq, Repr

/-- `OutputController::set_output`: drives the control pin directly
(`High` when enabling, `Low` when disabling); it does not touch any
broadcast topic. -/
def set_output (enable : Bool) : Level :=
  if enable then .High else .Low

/-- `ExponentialMovingAverage::update`:
`average := alpha * value + (1 - alpha) * average`. -/
def ema_update (alpha average value : ℚ) : ℚ :=
  alpha * value + (1 - alpha) * average

/-- Result of one pass of the current-measurement section of the main sensor
loop: the actuator pin level afterwards, the EMA filter state afterwards,
and the messages published to the output-enable broadcast topic by this
section. -/
structure CurrentStepResult where
  pin : Level
  amps_avg : ℚ
  output_topic_msgs : List Bool
deriving DecidableEq, Repr

/-- The current-measurement section of the main loop (`src/src/main.rs`
lines 197-212): on a successful reading, `amps = val.unwrap_or(0.0).max(0.0)`;
if `amps > ocp` the loop calls `output_controller.set_output(false)` directly
(no topic publish) and displays the raw value, otherwise it feeds the EMA
filter; on a read error it displays a sentinel.  `pin0` is whatever level the
actuator held when this section runs. -/
def current_step (reading : Except Unit (Option ℚ)) (ocp : ℚ) (pin0 : Level)
    (alpha avg : ℚ) : CurrentStepResult :=
  match reading with
  | .ok val =>
    let amps := max (val.getD 0) 0
    if amps > ocp then
      { pin := set_output false, amps_avg := avg, output_topic_msgs := [] }
    else
      { pin := pin0, amps_avg := ema_update alpha avg amps, output_topic_msgs := [] }
  | .error _ =>
    { pin := pin0, amps_avg := avg, output_topic_msgs := [] }

/-- A concrete controller state sitting on the UVP page with threshold 5. -/
def csUVP5 : CtrlState :=
  { page := .UVP, backlight := 0, direction := .Normal, ocp := 0, uvp := 5,
    output := false, pdo := ._5v, selected_voltage := ._5v, available := [._5v] }

/-- A concrete controller state on the Monitor page with backlight 10. -/
def csMon10 : CtrlState :=
  { page := .Monitor, backlight := 10, direction := .Normal, ocp := 0, uvp := 0,
    output := false, pdo := ._5v, selected_voltage := ._5v, available := [._5v] }

/-- A concrete controller state on `Setting(Voltage)` whose last-selected
voltage (9 V) is no longer in the capability table (which only offers 5 V). -/
def csSel9 : CtrlState :=
  { page := .Setting .Voltage, backlight := 0, direction := .Normal, ocp := 0, uvp := 0,
    output := false, pdo := ._5v, selected_voltage := ._9v, available := [._5v] }

/-! ## Theorems -/

/-- Ceiling division, written the way `write_area` computes it, agrees with
the usual `(a + b - 1) / b` form. -/
theorem div_ceil_form (a b : Nat) (hb : 0 < b) :
    a / b + (if a % b > 0 then 1 else 0) = (a + b - 1) / b := by
  rcases Nat.eq_zero_or_pos (a % b) with h | h
  · obtain ⟨k, rfl⟩ := Nat.dvd_of_mod_eq_zero h
    have h1 : b * k + b - 1 = b * k + (b - 1) := by omega
    have h2 : (b * k + (b - 1)) / b = k + (b - 1) / b := Nat.mul_add_div hb _ _
    have h3 : (b - 1) / b = 0 := Nat.div_eq_of_lt (by omega)
    have h4 : b * k / b = k := Nat.mul_div_cancel_left k hb
    rw [h, h1, h2, h3, h4]
    simp
  · have hmod : a % b < b := Nat.mod_lt _ hb
    have h1 : a % b - 1 < b := by omega
    have h3 : b * (a / b + 1) = b * (a / b) + b := by ring
    have key : a + b - 1 = b * (a / b + 1) + (a % b - 1) := by
      have h2 := Nat.div_add_mod a b
      omega
    have h4 : (b * (a / b + 1) + (a % b - 1)) / b = (a / b + 1) + (a % b - 1) / b :=
      Nat.mul_add_div hb _ _
    have h5 : (a % b - 1) / b = 0 := Nat.div_eq_of_lt h1
    rw [key, h4, h5]
    simp [h]

/-- C1, counterexample: on the UVP page with the threshold at 5, `Down` sets
the threshold to 0, not to 5 − 0.25 = 4.75 as the claim states (the code
resets to 0 whenever the value is below 10). -/
theorem C1_counterexample :
    (handle_input csUVP5 .Down).map CtrlState.uvp = some 0 ∧
    (handle_input csUVP5 .Down).map CtrlState.uvp ≠ some (5 - 1/4) := by
  constructor
  · norm_num [handle_input, csUVP5]
  · norm_num [handle_input, csUVP5]

/-- C1 (amended): on the UVP page, `Up` sets the threshold to `v + 0.25` when
`v ≤ 10` and clamps back to 10 when `v > 10` (so `Up` at 10 yields 10.25, it
does not wrap to 0); `Down` resets the threshold to 0 whenever `v < 10` and
yields `v − 0.25` when `v ≥ 10`.  The OCP page behaves identically on its
threshold.  Consequently each `Up`/`Down` step keeps a threshold that lies in
[0, 10.25] inside [0, 10.25] (not [0, 10]: 10.25 is reachable from 10). -/
theorem C1_uvp_ocp_step (s : CtrlState) :
    (s.page = .UVP →
      handle_input s .Up =
        some { s with uvp := if s.uvp > OCP_MAX then 10 else s.uvp + 1/4 } ∧
      handle_input s .Down =
        some { s with uvp := if s.uvp < 10 then 0 else s.uvp - 1/4 } ∧
      (0 ≤ s.uvp → s.uvp ≤ 41/4 →
        0 ≤ (if s.uvp > OCP_MAX then (10:ℚ) else s.uvp + 1/4) ∧
        (if s.uvp > OCP_MAX then (10:ℚ) else s.uvp + 1/4) ≤ 41/4 ∧
        0 ≤ (if s.uvp < 10 then (0:ℚ) else s.uvp - 1/4) ∧
        (if s.uvp < 10 then (0:ℚ) else s.uvp - 1/4) ≤ 41/4)) ∧
    (s.page = .OCP →
      handle_input s .Up =
        some { s with ocp := if s.ocp > OCP_MAX then 10 else s.ocp + 1/4 } ∧
      handle_input s .Down =
        some { s with ocp := if s.ocp < 10 then 0 else s.ocp - 1/4 } ∧
      (0 ≤ s.ocp → s.ocp ≤ 41/4 →
        0 ≤ (if s.ocp > OCP_MAX then (10:ℚ) else s.ocp + 1/4) ∧
        (if s.ocp > OCP_MAX then (10:ℚ) else s.ocp + 1/4) ≤ 41/4 ∧
        0 ≤ (if s.ocp < 10 then (0:ℚ) else s.ocp - 1/4) ∧
        (if s.ocp < 10 then (0:ℚ) else s.ocp - 1/4) ≤ 41/4)) := by
  have hOCP : OCP_MAX = 10 := rfl
  obtain ⟨pg, bl, dir, ocpv, uvpv, outp, pdov, selv, avail⟩ := s
  constructor
  · intro hpg
    cases hpg
    refine ⟨rfl, rfl, ?_⟩
    intro h0 h1
    rw [hOCP]
    refine ⟨?_, ?_, ?_, ?_⟩ <;> split_ifs <;> linarith
  · intro hpg
    cases hpg
    refine ⟨rfl, rfl, ?_⟩
    intro h0 h1
    rw [hOCP]
    refine ⟨?_, ?_, ?_, ?_⟩ <;> split_ifs <;> linarith

/-- Witness for C1 (amended) at the concrete state `csUVP5` (threshold 5):
`Down` yields threshold 0, and the stepped values stay within [0, 10.25]. -/
theorem C1_uvp_ocp_step_w :
    handle_input csUVP5 .Down = some { csUVP5 with uvp := 0 } ∧
    (0:ℚ) ≤ 5 + 1/4 ∧ 5 + (1:ℚ)/4 ≤ 41/4 := by
  have h := ((C1_uvp_ocp_step csUVP5).1 rfl).2.1
  have hinv := ((C1_uvp_ocp_step csUVP5).1 rfl).2.2 (by norm_num [csUVP5]) (by norm_num [csUVP5])
  refine ⟨?_, by norm_num, by norm_num⟩
  rwa [if_pos (show csUVP5.uvp < 10 by norm_num [csUVP5])] at h

/-- C2, counterexample: on the Monitor page with the backlight at 10, `Up`
yields 11, not 10 — the clamp test is `> 10`, so 10 is incremented past the
claimed bound and the invariant backlight ∈ [0, 10] fails. -/
theorem C2_counterexample :
    (handle_input csMon10 .Up).map CtrlState.backlight = some 11 ∧
    (handle_input csMon10 .Up).map CtrlState.backlight ≠ some 10 ∧
    10 < BACKLIGHT_INIT := by
  refine ⟨?_, ?_, ?_⟩ <;> decide

/-- C2 (amended): on the Monitor page, `Up` clamps the backlight to 10 only
when it is already above 10 and otherwise adds 1 — so from 10 it reaches 11
and only the next `Up` returns it to 10; `Down` resets values below 1 to 0
and otherwise subtracts 1.  Each step keeps a backlight that is ≤ 11 within
[0, 11] (not [0, 10]); moreover the initial mutex value is 255, already
outside [0, 10], and `Up` from it clamps directly to 10. -/
theorem C2_backlight_step (s : CtrlState) :
    (s.page = .Monitor →
      handle_input s .Up =
        some { s with backlight := if s.backlight > 10 then 10 else s.backlight + 1 } ∧
      handle_input s .Down =
        some { s with backlight := if s.backlight < 1 then 0 else s.backlight - 1 } ∧
      (s.backlight ≤ 11 →
        (if s.backlight > 10 then 10 else s.backlight + 1) ≤ 11 ∧
        (if s.backlight < 1 then 0 else s.backlight - 1) ≤ 11) ∧
      (s.backlight = BACKLIGHT_INIT →
        handle_input s .Up = some { s with backlight := 10 })) ∧
    10 < BACKLIGHT_INIT := by
  obtain ⟨pg, bl, dir, ocpv, uvpv, outp, pdov, selv, avail⟩ := s
  constructor
  · intro hpg
    cases hpg
    refine ⟨rfl, rfl, ?_, ?_⟩
    · intro hle
      constructor <;> split_ifs <;> omega
    · intro hinit
      cases hinit
      rfl
  · decide

/-- Witness for C2 (amended) at the concrete state `csMon10` (backlight 10):
`Up` yields backlight 11, within the amended bound 11. -/
theorem C2_backlight_step_w :
    handle_input csMon10 .Up = some { csMon10 with backlight := 11 } ∧
    (11 ≤ 11 ∧ 9 ≤ 11) := by
  have h := ((C2_backlight_step csMon10).1 rfl).1
  constructor
  · simpa [csMon10] using h
  · decide

/-- C3, counterexample: for `width = 16` and a 48-byte bitmap, `write_area`
computes a height of 72 rows — `ceil(MAX_DATA_LEN / width)` with the constant
`MAX_DATA_LEN = 1152` — not the 24 rows (`ceil(384 / 16)`) the claim derives
from the bit count of the bitmap, so the window is `(x, y, x+15, y+71)`, not
`(x, y, x+15, y+23)`. -/
theorem C3_counterexample :
    write_area_height 16 = 72 ∧
    spec_write_area_height 48 16 = 24 ∧
    write_area_window 0 0 16 = (0, 0, 15, 71) ∧
    write_area_window 0 0 16 ≠ (0, 0, 15, 23) := by
  refine ⟨?_, ?_, ?_, ?_⟩ <;> decide

/-- C3 (amended): the height `write_area` uses for the address window is the
ceiling of `MAX_DATA_LEN = 1152` (half its fixed pixel buffer) divided by
`width`; the bitmap argument plays no part in it.  The window is
`(x, y, x + width − 1, y + height − 1)`; in particular for `width = 16`
(whatever the bitmap, including the 48-byte glyphs) the height is 72 and the
window is `(x, y, x+15, y+71)`. -/
theorem C3_write_area_window (x y width : Nat) (hw : 0 < width) :
    write_area_height width = (MAX_DATA_LEN + width - 1) / width ∧
    write_area_window x y 16 = (x, y, x + 15, y + 71) := by
  constructor
  · exact div_ceil_form MAX_DATA_LEN width hw
  · have h : write_area_height 16 = 72 := by decide
    simp only [write_area_window, h, Prod.mk.injEq]
    exact ⟨trivial, trivial, by omega, by omega⟩

/-- Witness for C3 (amended) at `x = 3`, `y = 7`, `width = 16`. -/
theorem C3_write_area_window_w :
    write_area_height 16 = (MAX_DATA_LEN + 16 - 1) / 16 ∧
    write_area_window 3 7 16 = (3, 7, 18, 78) := by
  exact C3_write_area_window 3 7 16 (by decide)

/-- C4, counterexample: with a press recorded at t = 100 ms, a release at
t = 110 ms (gap 10 ms < 50 ms) emits `Released` but leaves the classifier
state completely unchanged — the press is *not* discarded — and a periodic
`update()` poll at t = 400 ms then emits `LongPressed` attributable to that
very press, contradicting the claim. -/
theorem C4_counterexample :
    on_release ⟨100, 0⟩ 110 = (⟨100, 0⟩, .Released) ∧
    (update ((on_release ⟨100, 0⟩ 110).1) 400).2 = some (.LongPressed 400) := by
  refine ⟨?_, ?_⟩ <;> decide

/-- C4 (amended): for a press/release pair with gap below 50 ms,
`on_release` emits `Released` and leaves the classifier state unchanged —
in particular `last_release_time` is untouched, so no double-click window is
opened by this release — but the press is *not* discarded: it remains
outstanding, and any later `update()` poll more than 200 ms after the press
emits a `LongPressed` for it (and resets both timestamps). -/
theorem C4_bounce_release (b : Button) (now : Nat)
    (hpress : b.last_press_time ≠ 0)
    (hgap : now - b.last_press_time < MIN_PRESS_DURATION) :
    on_release b now = (b, .Released) ∧
    ∀ n2, SHORT_PRESS_DURATION < n2 - b.last_press_time →
      update b n2 = (⟨0, 0⟩, some (.LongPressed n2)) := by
  constructor
  · unfold on_release
    rw [if_neg hpress, if_pos hgap]
  · intro n2 hlong
    unfold update
    rw [if_neg hpress, if_pos hlong]

/-- Witness for C4 (amended): press at 100 ms, bounce release at 110 ms,
poll at 400 ms. -/
theorem C4_bounce_release_w :
    on_release ⟨100, 0⟩ 110 = (⟨100, 0⟩, .Released) ∧
    update ⟨100, 0⟩ 400 = (⟨0, 0⟩, some (.LongPressed 400)) := by
  have h := C4_bounce_release ⟨100, 0⟩ 110 (by decide) (by decide)
  exact ⟨h.1, h.2 400 (by decide)⟩

/-- C5, counterexample: in the state `csSel9` — page `Setting(Voltage)`,
last-selected voltage 9 V, capability table offering only 5 V — dispatching
`UpAndDown` enters `Voltage(9 V)`, the last-selected voltage, even though the
table no longer contains it; it does not enter `Voltage(5 V)` (the first
available entry) as the claim requires in that case. -/
theorem C5_counterexample :
    (handle_input csSel9 .UpAndDown).map CtrlState.page = some (.Voltage ._9v) ∧
    (SrcPdo._9v ∈ csSel9.available) = False ∧
    (handle_input csSel9 .UpAndDown).map CtrlState.page ≠ some (.Voltage ._5v) := by
  refine ⟨?_, ?_, ?_⟩ <;> decide

/-- A voltage absent from the capability list is never found by `position`. -/
theorem position_eq_none_of_not_mem (sel : SrcPdo) (l : List SrcPdo) (h : sel ∉ l) :
    position l sel = none := by
  induction l with
  | nil => rfl
  | cons a t ih =>
    have h1 : sel ≠ a := fun he => h (he ▸ List.mem_cons_self a t)
    have h2 : sel ∉ t := fun hm => h (List.mem_cons_of_mem a hm)
    simp [position, h1, ih h2]

/-- C5 (amended): `UpAndDown` on `Setting(Voltage)` always enters
`Voltage(last-selected)`, regardless of the capability table; the fallback
to the first table entry only happens on the next `Up`/`Down` cycling step,
where `up_voltage`/`down_voltage` return the first element of the table whenever
the selected voltage is absent from it. -/
theorem C5_enter_voltage_page (s : CtrlState) (sel : SrcPdo) (avail : List SrcPdo)
    (hpg : s.page = .Setting .Voltage) (hne : avail ≠ []) (hmem : sel ∉ avail) :
    (handle_input s .UpAndDown).map CtrlState.page = some (.Voltage s.selected_voltage) ∧
    up_voltage avail sel = avail.get? 0 ∧
    down_voltage avail sel = avail.get? 0 ∧
    avail.get? 0 ≠ none := by
  have hfind : position avail sel = none := position_eq_none_of_not_mem sel avail hmem
  refine ⟨?_, ?_, ?_, ?_⟩
  · obtain ⟨pg, bl, dir, ocpv, uvpv, outp, pdov, selv, av⟩ := s
    cases hpg
    rfl
  · simp [up_voltage, hfind]
  · simp [down_voltage, hfind]
  · cases avail with
    | nil => exact absurd rfl hne
    | cons a l => simp

/-- Witness for C5 (amended) at `csSel9` (selected 9 V, table `[5 V]`). -/
theorem C5_enter_voltage_page_w :
    (handle_input csSel9 .UpAndDown).map CtrlState.page = some (.Voltage ._9v) ∧
    up_voltage [._5v] ._9v = some ._5v := by
  have h := C5_enter_voltage_page csSel9 ._9v [._5v] rfl (by decide) (by decide)
  exact ⟨h.1, h.2.1⟩

/-- With both timestamps at the sentinel, the periodic poll never emits. -/
theorem run_updates_sentinel (r : Nat) (ts : List Nat) :
    run_updates ⟨0, r⟩ ts = (⟨0, r⟩, []) := by
  induction ts with
  | nil => rfl
  | cons t ts ih => simp [run_updates, update, ih]

/-- Any sequence of periodic polls emits at most one `LongPressed`. -/
theorem countLongPressed_le_one (b : Button) (ts : List Nat) :
    countLongPressed (run_updates b ts).2 ≤ 1 := by
  induction ts generalizing b with
  | nil => simp [run_updates, countLongPressed]
  | cons t ts ih =>
    by_cases h0 : b.last_press_time = 0
    · simpa [run_updates, update, h0] using ih b
    · by_cases h1 : t - b.last_press_time > SHORT_PRESS_DURATION
      · simp [run_updates, update, h0, h1, run_updates_sentinel, countLongPressed]
      · simpa [run_updates, update, h0, h1] using ih b

/-- A press outstanding when some poll arrives late enough fires exactly
once. -/
theorem countLongPressed_eq_one (b : Button) (ts : List Nat)
    (h0 : b.last_press_time ≠ 0)
    (hex : ∃ t ∈ ts, b.last_press_time + SHORT_PRESS_DURATION < t) :
    countLongPressed (run_updates b ts).2 = 1 := by
  induction ts with
  | nil => simp at hex
  | cons t ts ih =>
    by_cases h1 : t - b.last_press_time > SHORT_PRESS_DURATION
    · simp [run_updates, update, h0, h1, run_updates_sentinel, countLongPressed]
    · obtain ⟨t0, ht0mem, ht0⟩ := hex
      rcases List.mem_cons.mp ht0mem with rfl | hmem
      · omega
      · simpa [run_updates, update, h0, h1] using ih ⟨t0, hmem, ht0⟩

/-- C6 (confirmed): a poll emits only when a press is outstanding and then
emits `LongPressed` and resets both timestamps to the sentinel; with no press
outstanding a poll sequence emits nothing; any poll sequence emits at most
one `LongPressed`; and when a press is outstanding and some poll arrives more
than 200 ms after it, exactly one `LongPressed` is emitted. -/
theorem C6_long_press_fires_once (b : Button) (ts : List Nat) :
    (∀ now b2 e, update b now = (b2, some e) →
      b.last_press_time ≠ 0 ∧ e = .LongPressed now ∧ b2 = ⟨0, 0⟩) ∧
    (b.last_press_time = 0 → (run_updates b ts).2 = []) ∧
    countLongPressed (run_updates b ts).2 ≤ 1 ∧
    (b.last_press_time ≠ 0 →
      (∃ t ∈ ts, b.last_press_time + SHORT_PRESS_DURATION < t) →
      countLongPressed (run_updates b ts).2 = 1) := by
  refine ⟨?_, ?_, countLongPressed_le_one b ts, countLongPressed_eq_one b ts⟩
  · intro now b2 e h
    by_cases h0 : b.last_press_time = 0
    · simp [update, h0] at h
    · by_cases h1 : now - b.last_press_time > SHORT_PRESS_DURATION
      · refine ⟨h0, ?_, ?_⟩ <;> simp [update, h0, h1] at h <;> tauto
      · simp [update, h0, h1] at h
  · intro h0
    obtain ⟨bp, br⟩ := b
    simp only at h0
    subst h0
    rw [run_updates_sentinel]

/-- Witness for C6: a press recorded at 1 ms and polls at 100 and 300 ms emit
exactly one `LongPressed`. -/
theorem C6_long_press_fires_once_w :
    countLongPressed (run_updates ⟨1, 0⟩ [100, 300]).2 = 1 := by
  exact (C6_long_press_fires_once ⟨1, 0⟩ [100, 300]).2.2.2 (by decide)
    ⟨300, by decide, by decide⟩

/-- C7 (confirmed): whenever both logical buttons hold `LongPressed` states
whose timestamps differ by less than 100 ms, the coordinator decision is the
single compound dispatch `UpAndDownLong`; the timestamp comparison is
symmetric, and the whole decision is unchanged when the two long-press
timestamps swap sides; and no dispatch at all happens while either logical
state is still `Pressed`. -/
theorem C7_compound_long_press (ta tb : Nat) (l : Bool) :
    (instant_diff ta tb < MAX_SIMULTANEOUS_PRESS_DELAY →
      dispatch (.LongPressed ta) (.LongPressed tb) l = some .UpAndDownLong) ∧
    instant_diff ta tb = instant_diff tb ta ∧
    dispatch (.LongPressed ta) (.LongPressed tb) l =
      dispatch (.LongPressed tb) (.LongPressed ta) l ∧
    (∀ up dn : ButtonState, ∀ m : Bool, (up = .Pressed ∨ dn = .Pressed) →
      dispatch up dn m = none) := by
  have hsym : instant_diff ta tb = instant_diff tb ta := by
    unfold instant_diff
    split_ifs <;> omega
  refine ⟨?_, hsym, ?_, ?_⟩
  · intro h
    simp [dispatch, bothLongWithin, h]
  · by_cases h : instant_diff ta tb < MAX_SIMULTANEOUS_PRESS_DELAY
    · simp [dispatch, bothLongWithin, h, hsym ▸ h]
    · have h2 : ¬ instant_diff tb ta < MAX_SIMULTANEOUS_PRESS_DELAY := hsym ▸ h
      cases l <;>
        simp [dispatch, bothLongWithin, bothClickWithin, h, h2, is_blocking]
  · intro up dn m h
    rcases h with h | h <;> subst h <;> simp [dispatch]

/-- Witness for C7: long presses at 1000 and 1050 ms (50 ms apart) dispatch
`UpAndDownLong`, in either arrival order. -/
theorem C7_compound_long_press_w :
    dispatch (.LongPressed 1000) (.LongPressed 1050) true = some .UpAndDownLong ∧
    dispatch (.Pressed) (.Click 7) false = none := by
  refine ⟨(C7_compound_long_press 1000 1050 true).1 (by decide), ?_⟩
  exact (C7_compound_long_press 1000 1050 true).2.2.2 .Pressed (.Click 7) false (Or.inl rfl)

/-- C8 (confirmed): with force-redraw off, a glyph column of a monitor
numeric field is re-blitted exactly when the formatted character at that
column differs between the current and previous value strings; identical
strings re-blit zero columns, and strings differing at exactly one column
re-blit exactly that column. -/
theorem C8_glyph_diff (curr prev : List Char) (i : Nat) :
    (i < 5 → (i ∈ render_monitor_blits curr prev false ↔ curr.get? i ≠ prev.get? i)) ∧
    render_monitor_blits curr curr false = [] ∧
    (i < 5 → curr.get? i ≠ prev.get? i →
      (∀ j, j ≠ i → curr.get? j = prev.get? j) →
      render_monitor_blits curr prev false = [i]) := by
  refine ⟨?_, ?_, ?_⟩
  · intro h5
    simp [render_monitor_blits, List.mem_filter, List.mem_range, h5]
  · simp [render_monitor_blits]
  · intro h5 hi hall
    have hr : List.range 5 = [0, 1, 2, 3, 4] := rfl
    simp only [List.get?_eq_getElem?] at hi hall
    interval_cases i
    · simp [render_monitor_blits, hr, List.filter, List.get?_eq_getElem?, hi, hall 1 (by omega),
        hall 2 (by omega), hall 3 (by omega), hall 4 (by omega)]
    · simp [render_monitor_blits, hr, List.filter, List.get?_eq_getElem?, hi, hall 0 (by omega),
        hall 2 (by omega), hall 3 (by omega), hall 4 (by omega)]
    · simp [render_monitor_blits, hr, List.filter, List.get?_eq_getElem?, hi, hall 0 (by omega),
        hall 1 (by omega), hall 3 (by omega), hall 4 (by omega)]
    · simp [render_monitor_blits, hr, List.filter, List.get?_eq_getElem?, hi, hall 0 (by omega),
        hall 1 (by omega), hall 2 (by omega), hall 4 (by omega)]
    · simp [render_monitor_blits, hr, List.filter, List.get?_eq_getElem?, hi, hall 0 (by omega),
        hall 1 (by omega), hall 2 (by omega), hall 3 (by omega)]

/-- Witness for C8: the successive readings formatted as "12.34" and "12.35"
re-blit exactly column 4; identical strings re-blit nothing. -/
theorem C8_glyph_diff_w :
    render_monitor_blits ['1','2','.','3','5'] ['1','2','.','3','4'] false = [4] ∧
    render_monitor_blits ['1','2','.','3','4'] ['1','2','.','3','4'] false = [] := by
  refine ⟨?_, (C8_glyph_diff ['1','2','.','3','4'] ['1','2','.','3','4'] 0).2.1⟩
  refine (C8_glyph_diff ['1','2','.','3','5'] ['1','2','.','3','4'] 4).2.2
    (by decide) (by decide) ?_
  intro j hj
  match j with
  | 0 => rfl
  | 1 => rfl
  | 2 => rfl
  | 3 => rfl
  | 4 => exact absurd rfl hj
  | n + 5 => rfl

/-- C9 (confirmed): in any iteration of the sensor loop whose measured
instantaneous current `max(val.unwrap_or(0), 0)` exceeds the OCP threshold,
the trip path drives the output actuator low in that same iteration by a
direct `set_output(false)` call, and publishes nothing on the output-enable
broadcast topic — the trip does not involve the topic at all, whatever level
the actuator held before. -/
theorem C9_ocp_trip (val : Option ℚ) (ocp : ℚ) (pin0 : Level) (alpha avg : ℚ)
    (htrip : max (val.getD 0) 0 > ocp) :
    (current_step (.ok val) ocp pin0 alpha avg).pin = Level.Low ∧
    (current_step (.ok val) ocp pin0 alpha avg).output_topic_msgs = [] := by
  constructor <;> simp [current_step, htrip, set_output]

/-- Witness for C9: a 3 A reading against a 1 A OCP threshold drives the pin
low even though it was high. -/
theorem C9_ocp_trip_w :
    (current_step (.ok (some 3)) 1 .High (1/10) 0).pin = Level.Low ∧
    (current_step (.ok (some 3)) 1 .High (1/10) 0).output_topic_msgs = [] := by
  refine C9_ocp_trip (some 3) 1 .High (1/10) 0 ?_
  simp only [Option.getD_some]
  norm_num

/-- C10 (confirmed): a release with no press recorded emits `Released` and
resets `last_release_time` to the sentinel, so after a prior valid click and
such a spurious release, the next completed press/release pair (gap ≥ 50 ms)
emits `Click`, never `DoubleClick`, however close the two releases are: a
valid `Click` can only complete at or after 300 ms, so the sentinel value 0
always fails the 300 ms double-click test. -/
theorem C10_spurious_release (b0 : Button) (n1 n2 tp n3 : Nat)
    (hclick : (on_release b0 n1).2 = .Click n1)
    (h12 : n1 ≤ n2) (h23 : n2 ≤ tp) (h34 : tp ≤ n3)
    (hgap : MIN_PRESS_DURATION ≤ n3 - tp) :
    (on_release (on_release b0 n1).1 n2).2 = .Released ∧
    (on_release (on_release b0 n1).1 n2).1.last_release_time = 0 ∧
    (on_release (on_press ((on_release (on_release b0 n1).1 n2).1) tp).1 n3).2 =
      .Click n3 := by
  have hD : DOUBLE_CLICK_TIMEOUT = 300 := rfl
  unfold on_release at hclick
  by_cases c1 : b0.last_press_time = 0
  · rw [if_pos c1] at hclick; simp at hclick
  rw [if_neg c1] at hclick
  by_cases c2 : n1 - b0.last_press_time < MIN_PRESS_DURATION
  · rw [if_pos c2] at hclick; simp at hclick
  rw [if_neg c2] at hclick
  by_cases c3 : n1 - b0.last_release_time < DOUBLE_CLICK_TIMEOUT
  · rw [if_pos c3] at hclick; simp at hclick
  have hb1 : (on_release b0 n1).1 = ⟨0, n1⟩ := by
    unfold on_release
    rw [if_neg c1, if_neg c2, if_neg c3]
  have hn1 : DOUBLE_CLICK_TIMEOUT ≤ n1 := by omega
  rw [hb1]
  have hb2 : on_release (⟨0, n1⟩ : Button) n2 = (⟨0, 0⟩, .Released) := rfl
  rw [hb2]
  refine ⟨rfl, rfl, ?_⟩
  have hb3 : (on_press (⟨0, 0⟩ : Button) tp).1 = ⟨tp, 0⟩ := rfl
  rw [hb3]
  have htp : ¬ tp = 0 := by omega
  have hc2 : ¬ n3 - tp < MIN_PRESS_DURATION := by omega
  have hc3 : ¬ n3 - (0 : Nat) < DOUBLE_CLICK_TIMEOUT := by omega
  unfold on_release
  rw [if_neg htp, if_neg hc2, if_neg hc3]

/-- Witness for C10: valid click completing at 460 ms, spurious release at
470 ms, new press at 480 ms, release at 540 ms — the result is `Click`. -/
theorem C10_spurious_release_w :
    (on_release (on_release ⟨400, 0⟩ 460).1 470).2 = .Released ∧
    (on_release (on_release ⟨400, 0⟩ 460).1 470).1.last_release_time = 0 ∧
    (on_release (on_press ((on_release (on_release ⟨400, 0⟩ 460).1 470).1) 480).1 540).2 =
      .Click 540 :=
  C10_spurious_release ⟨400, 0⟩ 460 470 480 540 (by decide) (by decide) (by decide)
    (by decide) (by decide)

end PdSink
